import Mathlib

/-!
Verification development for the Darcy flux module of this repository
(class `DarcyExtensiveQuantities`: `calculateGradients_`,
`calculateBoundaryGradients_`, `calculateFluxes_`, `calculateBoundaryFluxes_`,
`calculateFilterVelocity_`) and for `FvBasePrimaryVariables::makeEvaluation`.

The C++ code is templated over a scalar type (IEEE `double` in practice).
We embed it polymorphically over a small scalar-operation interface
`ScalarLike`, instantiated

  * at `ℚ` (exact arithmetic, every value finite) for the functional claims;
  * at `FScalar` (rational finite values plus `+inf`, `-inf`, `nan` with
    IEEE-style special-value propagation) for the non-finiteness claim.

External collaborators (element context, stencil, gradient calculator,
problem, fluid system, material law) are modelled as record fields holding
the values those collaborators return for the face being evaluated; the
flux module only ever reads them.
-/

namespace OpmDarcy

/-- Scalar operations the Darcy module uses, abstracting the C++ `Scalar`
template parameter.  `gtZeroS` is the `tmp > 0` comparison, `isFiniteS` is
`std::isfinite`, `sqrtS` is the square root used by Dune's `two_norm`. -/
class ScalarLike (α : Type) extends Add α, Sub α, Mul α, Div α, Neg α where
  zeroS : α
  gtZeroS : α → Bool
  isFiniteS : α → Bool
  sqrtS : α → α

/-- `Dune::FieldVector<Scalar, d>`. -/
abbrev Vec (α : Type) (d : Nat) := Fin d → α

/-- `Dune::FieldMatrix<Scalar, d, d>`. -/
abbrev Mat (α : Type) (d : Nat) := Fin d → Fin d → α

variable {α : Type} [ScalarLike α] {d np : Nat}

/-- The all-zero vector (`FieldVector = 0` assignment). -/
def vzero : Vec α d := fun _ => ScalarLike.zeroS

/-- Componentwise vector addition (`operator+=`). -/
def vadd (u v : Vec α d) : Vec α d := fun i => u i + v i

/-- Componentwise vector subtraction (`operator-=`). -/
def vsub (u v : Vec α d) : Vec α d := fun i => u i - v i

/-- Scaling of a vector by a scalar (`operator*=`). -/
def vscale (c : α) (v : Vec α d) : Vec α d := fun i => c * v i

/-- Dot product, accumulated left to right from zero exactly like the
source loop `for i: tmp += u[i]*v[i]` and Dune's `operator*`. -/
def dotV (u v : Vec α d) : α :=
  (List.finRange d).foldl (fun acc i => acc + u i * v i) ScalarLike.zeroS

/-- Dune `FieldVector::two_norm2`: sum of squares. -/
def two_norm2V (v : Vec α d) : α := dotV v v

/-- Dune `FieldVector::two_norm`: square root of the sum of squares. -/
def two_normV (v : Vec α d) : α := ScalarLike.sqrtS (two_norm2V v)

/-- `FieldMatrix::mv`: `y[i] = sum_j K[i][j] * x[j]`. -/
def matMulVec (K : Mat α d) (v : Vec α d) : Vec α d := fun i => dotV (K i) v

/-- Floor square root on naturals (largest `k` with `k*k ≤ n`), by linear
scan so that it reduces structurally. -/
def natSqrtE (n : Nat) : Nat :=
  (List.range (n + 1)).foldl (fun acc k => if k * k ≤ n then k else acc) 0

/-- Rational square root used to instantiate `sqrtS` at `ℚ`; exact
whenever numerator and denominator are perfect squares (the only form in
which this development evaluates it).  The source only applies `sqrt`
through `two_norm`, i.e. to nonnegative arguments. -/
def ratSqrt (q : ℚ) : ℚ := (natSqrtE q.num.toNat : ℚ) / (natSqrtE q.den : ℚ)

instance : ScalarLike ℚ where
  zeroS := 0
  gtZeroS q := decide (0 < q)
  isFiniteS _ := true
  sqrtS := ratSqrt

/-- The per-face record of the flux module: the mutable protected state of
`DarcyExtensiveQuantities` (`K_`, `interiorDofIdx_`, `exteriorDofIdx_`,
`upstreamDofIdx_`, `downstreamDofIdx_`, `mobility_`, `filterVelocity_`,
`volumeFlux_`, `potentialGrad_`).  The C++ members are uninitialized until
written; we model that by letting a record hold arbitrary values and
passing the pre-call record through each method, exactly as the methods
mutate the object in place.  (The C++ index members are `short`; nothing
in the module depends on their width, so we use `Int`.) -/
structure DarcyQuantities (α : Type) (d np : Nat) where
  K : Mat α d
  interiorDofIdx : Int
  exteriorDofIdx : Int
  upstreamDofIdx : Fin np → Int
  downstreamDofIdx : Fin np → Int
  mobility : Fin np → α
  filterVelocity : Fin np → Vec α d
  volumeFlux : Fin np → α
  potentialGrad : Fin np → Vec α d
deriving DecidableEq

/-- Everything `calculateGradients_` / `calculateFluxes_` read from their
`ElementContext`, stencil face, problem and intensive quantities for one
interior face and one time index. -/
structure InteriorFaceCtx (α : Type) (d np : Nat) where
  /-- `scvf.normal()` -/
  normal : Vec α d
  /-- `scvf.integrationPos()` -/
  integrationPos : Vec α d
  /-- `scvf.interiorIndex()` -/
  interiorIndex : Int
  /-- `scvf.exteriorIndex()` -/
  exteriorIndex : Int
  /-- `elemCtx.model().phaseIsConsidered(phaseIdx)` -/
  phaseIsConsidered : Fin np → Bool
  /-- result of `gradCalc.calculateGradient(..., pressureCallback)` for each
  considered phase -/
  rawGrad : Fin np → Vec α d
  /-- `EWOMS_GET_PARAM(TypeTag, bool, EnableGravity)` -/
  enableGravity : Bool
  /-- `elemCtx.problem().gravity(elemCtx, dofIdx, timeIdx)` -/
  gravity : Int → Vec α d
  /-- `elemCtx.pos(dofIdx, timeIdx)` -/
  pos : Int → Vec α d
  /-- `elemCtx.intensiveQuantities(dofIdx, timeIdx).fluidState().density(phaseIdx)` -/
  density : Int → Fin np → α
  /-- `elemCtx.intensiveQuantities(dofIdx, timeIdx).mobility(phaseIdx)` -/
  mobilityOf : Int → Fin np → α
  /-- `elemCtx.problem().intersectionIntrinsicPermeability(K_, ...)` -/
  intersectionIntrinsicPermeability : Mat α d

/-- Everything the boundary variants read for one boundary face: in
addition to the interior-volume lookups, the prescribed exterior fluid
state enters through the boundary gradient calculator result, the relative
permeabilities and the viscosity. -/
structure BoundaryFaceCtx (α : Type) (d np : Nat) where
  /-- `scvf.normal()` -/
  normal : Vec α d
  /-- `scvf.integrationPos()` -/
  integrationPos : Vec α d
  /-- `scvf.interiorIndex()` -/
  interiorIndex : Int
  /-- `elemCtx.model().phaseIsConsidered(phaseIdx)` -/
  phaseIsConsidered : Fin np → Bool
  /-- result of `gradCalc.calculateBoundaryGradient` with the
  `BoundaryPressureCallback` built from the prescribed fluid state -/
  rawGrad : Fin np → Vec α d
  /-- `EWOMS_GET_PARAM(TypeTag, bool, EnableGravity)` -/
  enableGravity : Bool
  /-- `elemCtx.problem().gravity(elemCtx, dofIdx, timeIdx)` -/
  gravity : Int → Vec α d
  /-- `elemCtx.pos(dofIdx, timeIdx)` -/
  pos : Int → Vec α d
  /-- `intQuantsIn.fluidState().density(phaseIdx)` -/
  densityIn : Fin np → α
  /-- `intQuantsIn.mobility(phaseIdx)` -/
  mobilityIn : Fin np → α
  /-- `intQuantsIn.intrinsicPermeability()` -/
  intrinsicPermeabilityIn : Mat α d
  /-- `MaterialLaw::relativePermeabilities(kr, matParams, fluidState)` with
  the prescribed fluid state -/
  kr : Fin np → α
  /-- `FluidSystem::viscosity(fluidState, paramCache, phaseIdx)` with the
  prescribed fluid state -/
  viscosity : Fin np → α

/-- `OPM_THROW(Opm::NumericalProblem, "Non finite potential gradient for
phase ...")`: the thrown error names the offending phase. -/
inductive DarcyError (np : Nat) where
  | numericalProblem (phaseIdx : Fin np)
deriving DecidableEq

/-- The hydrostatic correction vector `f` that the gravity block of
`calculateGradients_` adds to phase `p`'s raw pressure gradient:
`distVecIn = posIn - posFace`, `distVecEx = posEx - posFace`,
`distVecTotal = posEx - posIn`, `pStatIn = -rhoIn*(gIn*distVecIn)`,
`pStatEx = -rhoEx*(gEx*distVecEx)`,
`f = distVecTotal * ((pStatEx - pStatIn)/absDistTotalSquared)`. -/
def gravCorrI (ctx : InteriorFaceCtx α d np) (p : Fin np) : Vec α d :=
  let gIn := ctx.gravity ctx.interiorIndex
  let gEx := ctx.gravity ctx.exteriorIndex
  let posIn := ctx.pos ctx.interiorIndex
  let posEx := ctx.pos ctx.exteriorIndex
  let posFace := ctx.integrationPos
  let distVecIn := vsub posIn posFace
  let distVecEx := vsub posEx posFace
  let distVecTotal := vsub posEx posIn
  let absDistTotalSquared := two_norm2V distVecTotal
  let rhoIn := ctx.density ctx.interiorIndex p
  let rhoEx := ctx.density ctx.exteriorIndex p
  let pStatIn := -(rhoIn * dotV gIn distVecIn)
  let pStatEx := -(rhoEx * dotV gEx distVecEx)
  vscale ((pStatEx - pStatIn) / absDistTotalSquared) distVecTotal

/-- The hydrostatic correction of `calculateBoundaryGradients_`: only the
interior-side term exists, and the scaling divides by `absDist`
(`two_norm`, not squared): `f = distVecIn * ((0 - pStatIn)/absDist)`. -/
def gravCorrB (ctx : BoundaryFaceCtx α d np) (p : Fin np) : Vec α d :=
  let gIn := ctx.gravity ctx.interiorIndex
  let posIn := ctx.pos ctx.interiorIndex
  let distVecIn := vsub posIn ctx.integrationPos
  let absDist := two_normV distVecIn
  let rhoIn := ctx.densityIn p
  let pStatIn := -(rhoIn * dotV gIn distVecIn)
  vscale ((ScalarLike.zeroS - pStatIn) / absDist) distVecIn

/-- The gravity-correction loop shared (up to the correction term) by the
interior and boundary gradient methods: for each considered phase, add
that phase's correction to its stored gradient and throw
`NumericalProblem` if the corrected gradient's `two_norm` is not finite;
phases not considered are skipped. -/
def gravLoop (considered : Fin np → Bool) (corr : Fin np → Vec α d) :
    List (Fin np) → (Fin np → Vec α d) → Except (DarcyError np) (Fin np → Vec α d)
  | [], pg => .ok pg
  | p :: rest, pg =>
    if considered p then
      let pgP := vadd (pg p) (corr p)
      if ScalarLike.isFiniteS (two_normV pgP) then
        gravLoop considered corr rest (Function.update pg p pgP)
      else
        .error (.numericalProblem p)
    else
      gravLoop considered corr rest pg

/-- The tail of `calculateGradients_` after the gravity block: fetch the
face permeability, then for each considered phase project the stored
gradient on the face normal (`tmp`), classify upstream/downstream and
record the upstream mobility; phases not considered are skipped, leaving
whatever the record held. -/
def upwindStageI (ctx : InteriorFaceCtx α d np) (s0 : DarcyQuantities α d np)
    (pg2 : Fin np → Vec α d) : DarcyQuantities α d np :=
  let up : Fin np → Int := fun p =>
    if ctx.phaseIsConsidered p then
      (if ScalarLike.gtZeroS (dotV (pg2 p) ctx.normal) then ctx.exteriorIndex
       else ctx.interiorIndex)
    else s0.upstreamDofIdx p
  let down : Fin np → Int := fun p =>
    if ctx.phaseIsConsidered p then
      (if ScalarLike.gtZeroS (dotV (pg2 p) ctx.normal) then ctx.interiorIndex
       else ctx.exteriorIndex)
    else s0.downstreamDofIdx p
  let mob : Fin np → α := fun p =>
    if ctx.phaseIsConsidered p then ctx.mobilityOf (up p) p else s0.mobility p
  { s0 with
    interiorDofIdx := ctx.interiorIndex
    exteriorDofIdx := ctx.exteriorIndex
    K := ctx.intersectionIntrinsicPermeability
    potentialGrad := pg2
    upstreamDofIdx := up
    downstreamDofIdx := down
    mobility := mob }

/-- `DarcyExtensiveQuantities::calculateGradients_` on the record `s0`
(whose contents before the call are arbitrary, as in C++): raw gradients
for considered phases, optional gravity correction with finiteness check,
permeability fetch, upwind classification and upstream mobility. -/
def calculateGradients (ctx : InteriorFaceCtx α d np) (s0 : DarcyQuantities α d np) :
    Except (DarcyError np) (DarcyQuantities α d np) :=
  let pg1 : Fin np → Vec α d := fun p =>
    if ctx.phaseIsConsidered p then ctx.rawGrad p else s0.potentialGrad p
  match (if ctx.enableGravity then
           gravLoop ctx.phaseIsConsidered (gravCorrI ctx) (List.finRange np) pg1
         else .ok pg1) with
  | .error e => .error e
  | .ok pg2 => .ok (upwindStageI ctx s0 pg2)

/-- The tail of `calculateBoundaryGradients_` after the gravity block:
upwind classification against the boundary face normal, with the
exterior index being the sentinel `-1`; the upstream mobility is
recomputed as `kr/viscosity` from the prescribed fluid state when the
upstream index is negative, else looked up from the interior volume. -/
def upwindStageB (ctx : BoundaryFaceCtx α d np) (s0 : DarcyQuantities α d np)
    (pg2 : Fin np → Vec α d) : DarcyQuantities α d np :=
  let up : Fin np → Int := fun p =>
    if ctx.phaseIsConsidered p then
      (if ScalarLike.gtZeroS (dotV (pg2 p) ctx.normal) then (-1 : Int)
       else ctx.interiorIndex)
    else s0.upstreamDofIdx p
  let down : Fin np → Int := fun p =>
    if ctx.phaseIsConsidered p then
      (if ScalarLike.gtZeroS (dotV (pg2 p) ctx.normal) then ctx.interiorIndex
       else (-1 : Int))
    else s0.downstreamDofIdx p
  let mob : Fin np → α := fun p =>
    if ctx.phaseIsConsidered p then
      (if up p < 0 then ctx.kr p / ctx.viscosity p else ctx.mobilityIn p)
    else s0.mobility p
  { s0 with
    interiorDofIdx := ctx.interiorIndex
    exteriorDofIdx := (-1 : Int)
    K := ctx.intrinsicPermeabilityIn
    potentialGrad := pg2
    upstreamDofIdx := up
    downstreamDofIdx := down
    mobility := mob }

/-- `DarcyExtensiveQuantities::calculateBoundaryGradients_`. -/
def calculateBoundaryGradients (ctx : BoundaryFaceCtx α d np)
    (s0 : DarcyQuantities α d np) :
    Except (DarcyError np) (DarcyQuantities α d np) :=
  let pg1 : Fin np → Vec α d := fun p =>
    if ctx.phaseIsConsidered p then ctx.rawGrad p else s0.potentialGrad p
  match (if ctx.enableGravity then
           gravLoop ctx.phaseIsConsidered (gravCorrB ctx) (List.finRange np) pg1
         else .ok pg1) with
  | .error e => .error e
  | .ok pg2 => .ok (upwindStageB ctx s0 pg2)

/-- `DarcyExtensiveQuantities::calculateFilterVelocity_`:
`K_.mv(potentialGrad_[p], filterVelocity_[p]); filterVelocity_[p] *= -mobility_[p]`. -/
def calculateFilterVelocity (K : Mat α d) (mob : α) (pg : Vec α d) : Vec α d :=
  vscale (-mob) (matMulVec K pg)

/-- `DarcyExtensiveQuantities::calculateFluxes_`: for each phase, either
zero filter velocity and flux (phase not considered) or the Darcy filter
velocity and its projection on the face normal.  The method performs no
precondition check: it reads `K_`, `mobility_` and `potentialGrad_` as the
record currently holds them. -/
def calculateFluxes (ctx : InteriorFaceCtx α d np) (s : DarcyQuantities α d np) :
    DarcyQuantities α d np :=
  { s with
    filterVelocity := fun p =>
      if ctx.phaseIsConsidered p then
        calculateFilterVelocity s.K (s.mobility p) (s.potentialGrad p)
      else vzero
    volumeFlux := fun p =>
      if ctx.phaseIsConsidered p then
        dotV (calculateFilterVelocity s.K (s.mobility p) (s.potentialGrad p)) ctx.normal
      else ScalarLike.zeroS }

/-- `DarcyExtensiveQuantities::calculateBoundaryFluxes_`: identical to
`calculateFluxes_` with the boundary face's normal. -/
def calculateBoundaryFluxes (ctx : BoundaryFaceCtx α d np)
    (s : DarcyQuantities α d np) : DarcyQuantities α d np :=
  { s with
    filterVelocity := fun p =>
      if ctx.phaseIsConsidered p then
        calculateFilterVelocity s.K (s.mobility p) (s.potentialGrad p)
      else vzero
    volumeFlux := fun p =>
      if ctx.phaseIsConsidered p then
        dotV (calculateFilterVelocity s.K (s.mobility p) (s.potentialGrad p)) ctx.normal
      else ScalarLike.zeroS }

/-- The two-phase per-face protocol on an interior face: gradients first,
then fluxes; the flux stage runs only if the gradient stage succeeded. -/
def interiorGradThenFlux (ctx : InteriorFaceCtx α d np)
    (s0 : DarcyQuantities α d np) :
    Except (DarcyError np) (DarcyQuantities α d np) :=
  (calculateGradients ctx s0).map (fun s => calculateFluxes ctx s)

/-- The two-phase per-face protocol on a boundary face. -/
def boundaryGradThenFlux (ctx : BoundaryFaceCtx α d np)
    (s0 : DarcyQuantities α d np) :
    Except (DarcyError np) (DarcyQuantities α d np) :=
  (calculateBoundaryGradients ctx s0).map (fun s => calculateBoundaryFluxes ctx s)

/-!
An IEEE-style scalar model: exact rational finite values together with
the special values `+inf`, `-inf` and `nan`, with the usual propagation
rules.  Rounding and overflow of finite arithmetic are not modelled (a
finite operation on finite values stays finite and exact); what matters
for the source's `std::isfinite` check is how special values propagate,
and that is modelled faithfully.  The model's single zero plays the role
of IEEE `+0`.
-/

/-- A floating-point-like scalar: a finite rational or `+inf`, `-inf`, `nan`. -/
inductive FScalar where
  | fin (q : ℚ)
  | pinf
  | ninf
  | nan
deriving DecidableEq

namespace FScalar

/-- IEEE negation. -/
def negF : FScalar → FScalar
  | fin q => fin (-q)
  | pinf => ninf
  | ninf => pinf
  | nan => nan

/-- IEEE addition on special values; exact on finite values. -/
def addF : FScalar → FScalar → FScalar
  | nan, _ => nan
  | _, nan => nan
  | pinf, ninf => nan
  | ninf, pinf => nan
  | pinf, _ => pinf
  | _, pinf => pinf
  | ninf, _ => ninf
  | _, ninf => ninf
  | fin a, fin b => fin (a + b)

/-- IEEE subtraction, `a - b = a + (-b)`. -/
def subF (a b : FScalar) : FScalar := addF a (negF b)

/-- IEEE multiplication; `0 * inf = nan`. -/
def mulF : FScalar → FScalar → FScalar
  | nan, _ => nan
  | _, nan => nan
  | pinf, pinf => pinf
  | pinf, ninf => ninf
  | ninf, pinf => ninf
  | ninf, ninf => pinf
  | pinf, fin q => if q = 0 then nan else if 0 < q then pinf else ninf
  | fin q, pinf => if q = 0 then nan else if 0 < q then pinf else ninf
  | ninf, fin q => if q = 0 then nan else if 0 < q then ninf else pinf
  | fin q, ninf => if q = 0 then nan else if 0 < q then ninf else pinf
  | fin a, fin b => fin (a * b)

/-- IEEE division; `inf/inf = nan`, `x/0` gives a signed infinity or
`nan` (the model's zero standing in for `+0`). -/
def divF : FScalar → FScalar → FScalar
  | nan, _ => nan
  | _, nan => nan
  | pinf, pinf => nan
  | pinf, ninf => nan
  | ninf, pinf => nan
  | ninf, ninf => nan
  | pinf, fin q => if 0 ≤ q then pinf else ninf
  | ninf, fin q => if 0 ≤ q then ninf else pinf
  | fin _, pinf => fin 0
  | fin _, ninf => fin 0
  | fin a, fin b =>
    if b = 0 then (if a = 0 then nan else if 0 < a then pinf else ninf)
    else fin (a / b)

/-- IEEE square root: `nan` on negative or `nan` input, `+inf` on `+inf`;
on nonnegative finite values the (model) rational square root. -/
def sqrtF : FScalar → FScalar
  | fin q => if q < 0 then nan else fin (ratSqrt q)
  | pinf => pinf
  | ninf => nan
  | nan => nan

/-- IEEE `x > 0`: false on `nan`. -/
def gtZeroF : FScalar → Bool
  | fin q => decide (0 < q)
  | pinf => true
  | ninf => false
  | nan => false

/-- `std::isfinite`. -/
def isFiniteF : FScalar → Bool
  | fin _ => true
  | _ => false

end FScalar

instance : ScalarLike FScalar where
  add := FScalar.addF
  sub := FScalar.subF
  mul := FScalar.mulF
  div := FScalar.divF
  neg := FScalar.negF
  zeroS := .fin 0
  gtZeroS := FScalar.gtZeroF
  isFiniteS := FScalar.isFiniteF
  sqrtS := FScalar.sqrtF

/-!
Model of `FvBasePrimaryVariables::makeEvaluation`
(`src/ewoms/disc/common/fvbaseprimaryvariables.hh`).  On every call the
C++ method opens the hard-coded path `/home/joakimra/yesno.txt`, reads its
first line into `wrtInitial` (the empty string when the file cannot be
read) and, if that line equals `"true"`, swaps the time index between 0
and 1 before deciding whether to create a derivative-carrying variable or
a constant.  The ambient file content is modelled as the explicit
`wrtInitial` argument; everything after the read is translated verbatim.
-/

/-- `Toolbox::createVariable(value, varIdx)` / `Toolbox::createConstant(value)`. -/
inductive Evaluation where
  | varEval (value : ℚ) (derivIdx : Nat)
  | constEval (value : ℚ)
deriving DecidableEq

/-- `FvBasePrimaryVariables::makeEvaluation(varIdx, timeIdx)`, with the
first line of `/home/joakimra/yesno.txt` passed in as `wrtInitial` and the
stored primary-variable entries as `priVars`. -/
def makeEvaluation {numEq : Nat} (wrtInitial : String) (priVars : Fin numEq → ℚ)
    (varIdx : Fin numEq) (timeIdx : Nat) : Evaluation :=
  let timeIdx2 := if wrtInitial == "true" then (if timeIdx = 0 then 1 else 0) else timeIdx
  if timeIdx2 = 0 then
    .varEval (priVars varIdx) varIdx.val
  else
    .constEval (priVars varIdx)

/-- The interior hydrostatic correction exactly as claim C4 (and the spec
text it quotes) words it: the gravitational acceleration at the face is
the arithmetic mean of the interior and exterior control-volume values,
the hydrostatic pressure at each control-volume center is `-rho*(g*d)`
with `d` the displacement FROM the volume center TO the face integration
point, and the correction vector is the center-to-center vector scaled by
`(pStatExt - pStatInt)` divided by the squared center-to-center
distance.  Written from the claim's words, for comparison against
`gravCorrI`, which is written from the source. -/
def specGravCorrC4 (ctx : InteriorFaceCtx ℚ d np) (p : Fin np) : Vec ℚ d :=
  let gMean := vscale (1/2) (vadd (ctx.gravity ctx.interiorIndex) (ctx.gravity ctx.exteriorIndex))
  let dIn := vsub ctx.integrationPos (ctx.pos ctx.interiorIndex)
  let dEx := vsub ctx.integrationPos (ctx.pos ctx.exteriorIndex)
  let pStatIn := -(ctx.density ctx.interiorIndex p * dotV gMean dIn)
  let pStatEx := -(ctx.density ctx.exteriorIndex p * dotV gMean dEx)
  let c2c := vsub (ctx.pos ctx.exteriorIndex) (ctx.pos ctx.interiorIndex)
  vscale ((pStatEx - pStatIn) / two_norm2V c2c) c2c

/-!
Concrete inputs used by the witnesses and counterexamples below.  All of
them are one-dimensional single-phase faces; the record `exS0` plays the
role of a freshly constructed (uninitialized) extensive-quantities record.
-/

/-- A pre-call record (all slots zero). -/
def exS0 : DarcyQuantities ℚ 1 1 :=
  ⟨fun _ _ => 0, 0, 0, fun _ => 0, fun _ => 0, fun _ => 0,
   fun _ _ => 0, fun _ => 0, fun _ _ => 0⟩

/-- An interior face with gravity disabled: raw pressure gradient `[2]`,
face normal `[1]`, interior volume 0 at position 0, exterior volume 1 at
position 1, permeability `[[7]]`, mobilities 5 (volume 0) and 3 (volume 1). -/
def exCtxI : InteriorFaceCtx ℚ 1 1 where
  normal := fun _ => 1
  integrationPos := fun _ => 0
  interiorIndex := 0
  exteriorIndex := 1
  phaseIsConsidered := fun _ => true
  rawGrad := fun _ _ => 2
  enableGravity := false
  gravity := fun _ _ => 0
  pos := fun i _ => (i : ℚ)
  density := fun _ _ => 1
  mobilityOf := fun i _ => if i = 1 then 3 else 5
  intersectionIntrinsicPermeability := fun _ _ => 7

/-- The record produced by `calculateGradients` on `exCtxI` from `exS0`:
gradient `[2]`, positive projection, hence exterior (index 1) upstream. -/
def exIState : DarcyQuantities ℚ 1 1 :=
  (calculateGradients exCtxI exS0).toOption.getD exS0

/-- A boundary face with gravity disabled: boundary pressure gradient
`[-2]` (negative projection, interior upstream), interior mobility 5. -/
def exCtxB : BoundaryFaceCtx ℚ 1 1 where
  normal := fun _ => 1
  integrationPos := fun _ => 0
  interiorIndex := 0
  phaseIsConsidered := fun _ => true
  rawGrad := fun _ _ => -2
  enableGravity := false
  gravity := fun _ _ => 0
  pos := fun i _ => (i : ℚ)
  densityIn := fun _ => 1
  mobilityIn := fun _ => 5
  intrinsicPermeabilityIn := fun _ _ => 7
  kr := fun _ => 3
  viscosity := fun _ => 2

/-- The record produced by `calculateBoundaryGradients` on `exCtxB`. -/
def exBState : DarcyQuantities ℚ 1 1 :=
  (calculateBoundaryGradients exCtxB exS0).toOption.getD exS0

/-- Like `exCtxB` but with boundary gradient `[2]`: positive projection,
so the upstream side is the exterior sentinel and the mobility must be
recomputed as `kr/viscosity = 3/2` from the prescribed state. -/
def exCtxB2 : BoundaryFaceCtx ℚ 1 1 :=
  { exCtxB with rawGrad := fun _ _ => 2 }

/-- The record produced by `calculateBoundaryGradients` on `exCtxB2`. -/
def exB2State : DarcyQuantities ℚ 1 1 :=
  (calculateBoundaryGradients exCtxB2 exS0).toOption.getD exS0

/-- `exCtxI` with no phase considered. -/
def exCtxI3 : InteriorFaceCtx ℚ 1 1 :=
  { exCtxI with phaseIsConsidered := fun _ => false }

/-- `exCtxB` with no phase considered. -/
def exCtxB3 : BoundaryFaceCtx ℚ 1 1 :=
  { exCtxB with phaseIsConsidered := fun _ => false }

/-- A record standing for a face object on which `calculateGradients_`
was never invoked: its permeability (2), mobility (3) and potential
gradient (5) slots hold leftover values no gradient stage produced. -/
def junkState6 : DarcyQuantities ℚ 1 1 :=
  ⟨fun _ _ => 2, 0, 0, fun _ => 0, fun _ => 0, fun _ => 3,
   fun _ _ => 0, fun _ => 0, fun _ _ => 5⟩

/-- An interior face with gravity enabled whose gravitational acceleration
differs between the interior volume (`[0]`, volume 0 at position 0) and
the exterior volume (`[2]`, volume 1 at position 2); face integration
point `[1]`, raw gradient `[0]`, densities 1. -/
def ctx4 : InteriorFaceCtx ℚ 1 1 where
  normal := fun _ => 1
  integrationPos := fun _ => 1
  interiorIndex := 0
  exteriorIndex := 1
  phaseIsConsidered := fun _ => true
  rawGrad := fun _ _ => 0
  enableGravity := true
  gravity := fun i _ => if i = 0 then 0 else 2
  pos := fun i _ => if i = 0 then 0 else 2
  density := fun _ _ => 1
  mobilityOf := fun i _ => if i = 1 then 3 else 5
  intersectionIntrinsicPermeability := fun _ _ => 1

/-- The record produced by `calculateGradients` on `ctx4` from `exS0`:
the code's correction is `[-1]` (per-volume gravity), whereas the claim's
mean-gravity, center-to-face formula would give `[1]`. -/
def ex4State : DarcyQuantities ℚ 1 1 :=
  (calculateGradients ctx4 exS0).toOption.getD exS0

/-- A boundary face with gravity enabled whose prescribed exterior state
equals the interior state, modelled by the zero boundary pressure
gradient the gradient calculator returns for a zero differential:
interior volume 0 at position `[1]`, face at `[0]`, gravity `[-3]`,
interior density 2, unit permeability and mobility. -/
def ctx8 : BoundaryFaceCtx ℚ 1 1 where
  normal := fun _ => 1
  integrationPos := fun _ => 0
  interiorIndex := 0
  phaseIsConsidered := fun _ => true
  rawGrad := fun _ _ => 0
  enableGravity := true
  gravity := fun _ _ => -3
  pos := fun i _ => if i = 0 then 1 else 0
  densityIn := fun _ => 2
  mobilityIn := fun _ => 1
  intrinsicPermeabilityIn := fun _ _ => 1
  kr := fun _ => 1
  viscosity := fun _ => 1

/-- The record produced by `boundaryGradThenFlux` on `ctx8` from `exS0`:
the interior-side hydrostatic correction turns the zero raw gradient into
`[-6]`, giving volumetric flux 6. -/
def ex8State : DarcyQuantities ℚ 1 1 :=
  (boundaryGradThenFlux ctx8 exS0).toOption.getD exS0

/-- `ctx8` with gravity disabled. -/
def ctxB8off : BoundaryFaceCtx ℚ 1 1 :=
  { ctx8 with enableGravity := false }

/-- The record produced by `boundaryGradThenFlux` on `ctxB8off` from
`exS0`: everything the zero differential allows, flux 0. -/
def exB8State : DarcyQuantities ℚ 1 1 :=
  (boundaryGradThenFlux ctxB8off exS0).toOption.getD exS0

/-- A pre-call record over `FScalar` (all slots finite zero). -/
def exF0 : DarcyQuantities FScalar 1 1 :=
  ⟨fun _ _ => .fin 0, 0, 0, fun _ => 0, fun _ => 0, fun _ => .fin 0,
   fun _ _ => .fin 0, fun _ => .fin 0, fun _ _ => .fin 0⟩

/-- The failure scenario of the spec: an interior face with gravity
enabled whose interior and exterior densities are opposite-sign
infinities, so the hydrostatic correction is `nan` and the corrected
gradient is not finite. -/
def ctxI5 : InteriorFaceCtx FScalar 1 1 where
  normal := fun _ => .fin 1
  integrationPos := fun _ => .fin 1
  interiorIndex := 0
  exteriorIndex := 1
  phaseIsConsidered := fun _ => true
  rawGrad := fun _ _ => .fin 0
  enableGravity := true
  gravity := fun _ _ => .fin 1
  pos := fun i _ => if i = 0 then .fin 0 else .fin 2
  density := fun i _ => if i = 0 then .pinf else .ninf
  mobilityOf := fun _ _ => .fin 1
  intersectionIntrinsicPermeability := fun _ _ => .fin 1

/-- A boundary face with gravity enabled and an infinite interior
density, making the corrected boundary gradient infinite. -/
def ctxB5 : BoundaryFaceCtx FScalar 1 1 where
  normal := fun _ => .fin 1
  integrationPos := fun _ => .fin 1
  interiorIndex := 0
  phaseIsConsidered := fun _ => true
  rawGrad := fun _ _ => .fin 0
  enableGravity := true
  gravity := fun _ _ => .fin 1
  pos := fun i _ => if i = 0 then .fin 0 else .fin 2
  densityIn := fun _ => .pinf
  mobilityIn := fun _ => .fin 1
  intrinsicPermeabilityIn := fun _ _ => .fin 1
  kr := fun _ => .fin 1
  viscosity := fun _ => .fin 1

/-!
Helper lemmas about the gravity-correction loop and the two gradient
methods.
-/

theorem ratZeroS : (ScalarLike.zeroS : ℚ) = 0 := rfl

theorem ratGtZeroS (q : ℚ) : ScalarLike.gtZeroS q = decide (0 < q) := rfl

theorem ok_of_toOption {ε σ : Type} {r : Except ε σ} {v : σ}
    (h : r.toOption = some v) : r = .ok v := by
  cases r with
  | ok a => simpa [Except.toOption] using congrArg (Except.ok (ε := ε)) h
  | error e => simp [Except.toOption] at h

/-- If the gravity loop completes without throwing, each considered phase
in the (duplicate-free) list got exactly its correction added and passed
the finiteness check; every other slot is untouched. -/
theorem gravLoop_ok_eq {considered : Fin np → Bool} {corr : Fin np → Vec α d} :
    ∀ (l : List (Fin np)), l.Nodup → ∀ (pg pg' : Fin np → Vec α d),
      gravLoop considered corr l pg = .ok pg' → ∀ p : Fin np,
      (p ∈ l →
        (considered p = true → pg' p = vadd (pg p) (corr p) ∧
          ScalarLike.isFiniteS (two_normV (pg' p)) = true) ∧
        (considered p = false → pg' p = pg p)) ∧
      (p ∉ l → pg' p = pg p) := by
  intro l
  induction l with
  | nil =>
    intro _ pg pg' h p
    simp only [gravLoop] at h
    cases h
    simp
  | cons r rest ih =>
    intro hnd pg pg' h p
    have hndr : rest.Nodup := (List.nodup_cons.mp hnd).2
    have hrni : r ∉ rest := (List.nodup_cons.mp hnd).1
    by_cases hc : considered r = true
    · simp only [gravLoop, hc, if_true] at h
      by_cases hf : ScalarLike.isFiniteS (two_normV (vadd (pg r) (corr r))) = true
      · rw [if_pos hf] at h
        have IH := ih hndr (Function.update pg r (vadd (pg r) (corr r))) pg' h
        by_cases hpr : p = r
        · subst hpr
          refine ⟨fun _ => ⟨fun _ => ?_, fun hcf => ?_⟩, fun hnm => ?_⟩
          · have h1 := (IH p).2 hrni
            rw [Function.update_same] at h1
            exact ⟨h1, by rw [h1]; exact hf⟩
          · rw [hc] at hcf; cases hcf
          · exact absurd (List.mem_cons_self p rest) hnm
        · have hupd : Function.update pg r (vadd (pg r) (corr r)) p = pg p :=
            Function.update_noteq hpr _ _
          constructor
          · intro hpl
            have hprest : p ∈ rest := by
              cases List.mem_cons.mp hpl with
              | inl h1 => exact absurd h1 hpr
              | inr h2 => exact h2
            have := ((IH p).1 hprest)
            refine ⟨fun hcp => ?_, fun hcp => ?_⟩
            · have h2 := this.1 hcp
              rw [hupd] at h2
              exact h2
            · have h2 := this.2 hcp
              rw [hupd] at h2
              exact h2
          · intro hnm
            have hprest : p ∉ rest := fun hmem => hnm (List.mem_cons_of_mem _ hmem)
            have := (IH p).2 hprest
            rw [hupd] at this
            exact this
      · rw [if_neg hf] at h
        cases h
    · have hcf : considered r = false := by
        cases hcr : considered r with
        | true => exact absurd hcr hc
        | false => rfl
      simp only [gravLoop, hcf] at h
      simp only [Bool.false_eq_true, if_false] at h
      have IH := ih hndr pg pg' h
      by_cases hpr : p = r
      · subst hpr
        refine ⟨fun _ => ⟨fun hcp => ?_, fun _ => ?_⟩, fun hnm => ?_⟩
        · rw [hcf] at hcp; cases hcp
        · exact (IH p).2 hrni
        · exact absurd (List.mem_cons_self p rest) hnm
      · constructor
        · intro hpl
          have hprest : p ∈ rest := by
            cases List.mem_cons.mp hpl with
            | inl h1 => exact absurd h1 hpr
            | inr h2 => exact h2
          exact (IH p).1 hprest
        · intro hnm
          exact (IH p).2 (fun hmem => hnm (List.mem_cons_of_mem _ hmem))

/-- If phase `p` is the unique considered phase in the list whose
corrected gradient is not finite, the gravity loop throws
`NumericalProblem p`. -/
theorem gravLoop_error_at {considered : Fin np → Bool} {corr : Fin np → Vec α d} :
    ∀ (l : List (Fin np)), l.Nodup → ∀ (pg : Fin np → Vec α d) (p : Fin np),
      p ∈ l → considered p = true →
      ScalarLike.isFiniteS (two_normV (vadd (pg p) (corr p))) = false →
      (∀ r ∈ l, r ≠ p → considered r = true →
        ScalarLike.isFiniteS (two_normV (vadd (pg r) (corr r))) = true) →
      gravLoop considered corr l pg = .error (.numericalProblem p) := by
  intro l
  induction l with
  | nil =>
    intro _ pg p hmem
    exact absurd hmem (List.not_mem_nil p)
  | cons r rest ih =>
    intro hnd pg p hmem hc hnf hfin
    have hndr : rest.Nodup := (List.nodup_cons.mp hnd).2
    have hrni : r ∉ rest := (List.nodup_cons.mp hnd).1
    by_cases hpr : p = r
    · subst hpr
      simp only [gravLoop, hc, if_true, hnf]
      simp
    · have hprest : p ∈ rest := by
        cases List.mem_cons.mp hmem with
        | inl h1 => exact absurd h1 hpr
        | inr h2 => exact h2
      by_cases hcr : considered r = true
      · have hfr : ScalarLike.isFiniteS (two_normV (vadd (pg r) (corr r))) = true :=
          hfin r (List.mem_cons_self r rest) (fun he => hpr he.symm) hcr
        simp only [gravLoop, hcr, if_true, hfr, if_true]
        have hupdp : Function.update pg r (vadd (pg r) (corr r)) p = pg p :=
          Function.update_noteq hpr _ _
        refine ih hndr _ p hprest hc ?_ ?_
        · rw [hupdp]; exact hnf
        · intro r2 hr2 hr2p hcr2
          have hr2r : r2 ≠ r := fun he => hrni (he ▸ hr2)
          rw [Function.update_noteq hr2r _ _]
          exact hfin r2 (List.mem_cons_of_mem _ hr2) hr2p hcr2
      · have hcf : considered r = false := by
          cases hv : considered r with
          | true => exact absurd hv hcr
          | false => rfl
        simp only [gravLoop, hcf, Bool.false_eq_true, if_false]
        refine ih hndr pg p hprest hc hnf ?_
        intro r2 hr2 hr2p hcr2
        exact hfin r2 (List.mem_cons_of_mem _ hr2) hr2p hcr2

/-- Characterization of a successful `calculateGradients_` run: the face
indices and permeability are recorded, and for every considered phase the
stored gradient is the raw gradient plus (under gravity) the hydrostatic
correction, the upwind classification follows the sign of its projection
on the face normal, and the mobility is looked up at the upstream index. -/
theorem calculateGradients_ok_spec (ctx : InteriorFaceCtx α d np)
    (s0 s' : DarcyQuantities α d np)
    (h : calculateGradients ctx s0 = .ok s') :
    s'.interiorDofIdx = ctx.interiorIndex ∧
    s'.exteriorDofIdx = ctx.exteriorIndex ∧
    s'.K = ctx.intersectionIntrinsicPermeability ∧
    ∀ p : Fin np, ctx.phaseIsConsidered p = true →
      s'.potentialGrad p =
        (if ctx.enableGravity then vadd (ctx.rawGrad p) (gravCorrI ctx p)
         else ctx.rawGrad p) ∧
      (ctx.enableGravity = true →
        ScalarLike.isFiniteS (two_normV (s'.potentialGrad p)) = true) ∧
      s'.upstreamDofIdx p =
        (if ScalarLike.gtZeroS (dotV (s'.potentialGrad p) ctx.normal)
         then ctx.exteriorIndex else ctx.interiorIndex) ∧
      s'.downstreamDofIdx p =
        (if ScalarLike.gtZeroS (dotV (s'.potentialGrad p) ctx.normal)
         then ctx.interiorIndex else ctx.exteriorIndex) ∧
      s'.mobility p = ctx.mobilityOf (s'.upstreamDofIdx p) p := by
  unfold calculateGradients at h
  cases hg : ctx.enableGravity with
  | false =>
    rw [hg] at h
    simp only [if_false, Bool.false_eq_true] at h
    cases h
    refine ⟨rfl, rfl, rfl, fun p hp => ⟨?_, ?_, ?_, ?_, ?_⟩⟩
    · simp [upwindStageI, hp, hg]
    · intro hcontra
      simp at hcontra
    · simp [upwindStageI, hp]
    · simp [upwindStageI, hp]
    · simp [upwindStageI, hp]
  | true =>
    rw [hg] at h
    simp only [if_true] at h
    cases hloop : gravLoop ctx.phaseIsConsidered (gravCorrI ctx) (List.finRange np)
        (fun p => if ctx.phaseIsConsidered p then ctx.rawGrad p else s0.potentialGrad p) with
    | error e => rw [hloop] at h; cases h
    | ok pg2 =>
      rw [hloop] at h
      cases h
      refine ⟨rfl, rfl, rfl, fun p hp => ?_⟩
      have hmem : p ∈ List.finRange np := List.mem_finRange p
      have hspec := (gravLoop_ok_eq (List.finRange np) (List.nodup_finRange np)
        _ pg2 hloop p).1 hmem
      have hval := (hspec.1 hp).1
      have hfin := (hspec.1 hp).2
      simp only [hp, if_true] at hval
      refine ⟨?_, fun _ => ?_, ?_, ?_, ?_⟩
      · simpa [upwindStageI, hg] using hval
      · simpa [upwindStageI] using hfin
      · simp [upwindStageI, hp]
      · simp [upwindStageI, hp]
      · simp [upwindStageI, hp]

/-- Characterization of a successful `calculateBoundaryGradients_` run:
the exterior index is the sentinel `-1`, the permeability comes from the
interior volume, and for every considered phase the stored gradient,
upwind classification and mobility rule (recompute `kr/viscosity` from
the prescribed state when upstream is the sentinel, else interior lookup)
are as in the source. -/
theorem calculateBoundaryGradients_ok_spec (ctx : BoundaryFaceCtx α d np)
    (s0 s' : DarcyQuantities α d np)
    (h : calculateBoundaryGradients ctx s0 = .ok s') :
    s'.interiorDofIdx = ctx.interiorIndex ∧
    s'.exteriorDofIdx = (-1 : Int) ∧
    s'.K = ctx.intrinsicPermeabilityIn ∧
    ∀ p : Fin np, ctx.phaseIsConsidered p = true →
      s'.potentialGrad p =
        (if ctx.enableGravity then vadd (ctx.rawGrad p) (gravCorrB ctx p)
         else ctx.rawGrad p) ∧
      (ctx.enableGravity = true →
        ScalarLike.isFiniteS (two_normV (s'.potentialGrad p)) = true) ∧
      s'.upstreamDofIdx p =
        (if ScalarLike.gtZeroS (dotV (s'.potentialGrad p) ctx.normal)
         then (-1 : Int) else ctx.interiorIndex) ∧
      s'.downstreamDofIdx p =
        (if ScalarLike.gtZeroS (dotV (s'.potentialGrad p) ctx.normal)
         then ctx.interiorIndex else (-1 : Int)) ∧
      s'.mobility p =
        (if s'.upstreamDofIdx p < 0 then ctx.kr p / ctx.viscosity p
         else ctx.mobilityIn p) := by
  unfold calculateBoundaryGradients at h
  cases hg : ctx.enableGravity with
  | false =>
    rw [hg] at h
    simp only [if_false, Bool.false_eq_true] at h
    cases h
    refine ⟨rfl, rfl, rfl, fun p hp => ⟨?_, ?_, ?_, ?_, ?_⟩⟩
    · simp [upwindStageB, hp, hg]
    · intro hcontra
      simp at hcontra
    · simp [upwindStageB, hp]
    · simp [upwindStageB, hp]
    · simp [upwindStageB, hp]
  | true =>
    rw [hg] at h
    simp only [if_true] at h
    cases hloop : gravLoop ctx.phaseIsConsidered (gravCorrB ctx) (List.finRange np)
        (fun p => if ctx.phaseIsConsidered p then ctx.rawGrad p else s0.potentialGrad p) with
    | error e => rw [hloop] at h; cases h
    | ok pg2 =>
      rw [hloop] at h
      cases h
      refine ⟨rfl, rfl, rfl, fun p hp => ?_⟩
      have hmem : p ∈ List.finRange np := List.mem_finRange p
      have hspec := (gravLoop_ok_eq (List.finRange np) (List.nodup_finRange np)
        _ pg2 hloop p).1 hmem
      have hval := (hspec.1 hp).1
      have hfin := (hspec.1 hp).2
      simp only [hp, if_true] at hval
      refine ⟨?_, fun _ => ?_, ?_, ?_, ?_⟩
      · simpa [upwindStageB, hg] using hval
      · simpa [upwindStageB] using hfin
      · simp [upwindStageB, hp]
      · simp [upwindStageB, hp]
      · simp [upwindStageB, hp]

theorem exIState_ok : calculateGradients exCtxI exS0 = .ok exIState := rfl

theorem exBState_ok : calculateBoundaryGradients exCtxB exS0 = .ok exBState := rfl

theorem exB2State_ok : calculateBoundaryGradients exCtxB2 exS0 = .ok exB2State := rfl

theorem ex4State_ok : calculateGradients ctx4 exS0 = .ok ex4State := rfl

theorem ex8State_ok : boundaryGradThenFlux ctx8 exS0 = .ok ex8State := rfl

theorem exB8State_ok : boundaryGradThenFlux ctxB8off exS0 = .ok exB8State := rfl

theorem dotV_zeroRight (u : Vec ℚ d) : dotV u vzero = 0 := by
  have key : ∀ (l : List (Fin d)) (a : ℚ),
      l.foldl (fun acc i => acc + u i * vzero i) a = a := by
    intro l
    induction l with
    | nil => intro a; rfl
    | cons x xs ih =>
      intro a
      rw [List.foldl_cons, show a + u x * vzero x = a from by
        show a + u x * (0:ℚ) = a; ring]
      exact ih _
  exact key _ _

theorem dotV_zeroLeft (v : Vec ℚ d) : dotV vzero v = 0 := by
  have key : ∀ (l : List (Fin d)) (a : ℚ),
      l.foldl (fun acc i => acc + vzero i * v i) a = a := by
    intro l
    induction l with
    | nil => intro a; rfl
    | cons x xs ih =>
      intro a
      rw [List.foldl_cons, show a + vzero x * v x = a from by
        show a + (0:ℚ) * v x = a; ring]
      exact ih _
  exact key _ _

theorem matMulVec_vzero (K : Mat ℚ d) : matMulVec K vzero = vzero := by
  funext i
  show dotV (K i) vzero = vzero i
  rw [dotV_zeroRight]
  rfl

theorem vscale_vzero (c : ℚ) : vscale c (vzero : Vec ℚ d) = vzero := by
  funext i
  show c * vzero i = vzero i
  show c * (0:ℚ) = (0:ℚ)
  exact mul_zero c

/-!
The claims.
-/

/-- C1: for every face (interior or boundary) and every fluid phase
considered by the model, the flux stage computes the filter velocity as
minus the phase mobility times the intrinsic permeability tensor applied
to that phase's potential gradient, and the volumetric flux as the dot
product of that filter velocity with the face normal. -/
theorem c1_filter_velocity_and_flux
    (ctxI : InteriorFaceCtx α d np) (ctxB : BoundaryFaceCtx α d np)
    (s t : DarcyQuantities α d np) (p q : Fin np)
    (hp : ctxI.phaseIsConsidered p = true) (hq : ctxB.phaseIsConsidered q = true) :
    ((calculateFluxes ctxI s).filterVelocity p =
        vscale (-(s.mobility p)) (matMulVec s.K (s.potentialGrad p)) ∧
      (calculateFluxes ctxI s).volumeFlux p =
        dotV ((calculateFluxes ctxI s).filterVelocity p) ctxI.normal) ∧
    ((calculateBoundaryFluxes ctxB t).filterVelocity q =
        vscale (-(t.mobility q)) (matMulVec t.K (t.potentialGrad q)) ∧
      (calculateBoundaryFluxes ctxB t).volumeFlux q =
        dotV ((calculateBoundaryFluxes ctxB t).filterVelocity q) ctxB.normal) := by
  refine ⟨⟨?_, ?_⟩, ⟨?_, ?_⟩⟩ <;>
    simp [calculateFluxes, calculateBoundaryFluxes, calculateFilterVelocity, hp, hq]

/-- Witness for C1 at a concrete interior and boundary face. -/
theorem c1_filter_velocity_and_flux_witness :
    exCtxI.phaseIsConsidered 0 = true ∧ exCtxB.phaseIsConsidered 0 = true ∧
    ((calculateFluxes exCtxI exIState).filterVelocity 0 =
        vscale (-(exIState.mobility 0)) (matMulVec exIState.K (exIState.potentialGrad 0)) ∧
      (calculateFluxes exCtxI exIState).volumeFlux 0 =
        dotV ((calculateFluxes exCtxI exIState).filterVelocity 0) exCtxI.normal) ∧
    ((calculateBoundaryFluxes exCtxB exBState).filterVelocity 0 =
        vscale (-(exBState.mobility 0)) (matMulVec exBState.K (exBState.potentialGrad 0)) ∧
      (calculateBoundaryFluxes exCtxB exBState).volumeFlux 0 =
        dotV ((calculateBoundaryFluxes exCtxB exBState).filterVelocity 0) exCtxB.normal) :=
  ⟨rfl, rfl, c1_filter_velocity_and_flux exCtxI exCtxB exIState exBState 0 0 rfl rfl⟩

/-- C2: after the gradient stage, for every considered phase, a strictly
positive projection of the (gravity-corrected) potential gradient on the
face normal makes the exterior volume upstream and the interior volume
downstream; otherwise (a negative or exactly zero projection) the
interior volume is upstream and the exterior downstream; and the interior
and boundary variants follow the same rule, the boundary exterior being
the sentinel `-1`. -/
theorem c2_upwind_classification
    (ctxI : InteriorFaceCtx ℚ d np) (ctxB : BoundaryFaceCtx ℚ d np)
    (s0I sI s0B sB : DarcyQuantities ℚ d np) (p q : Fin np)
    (hpI : ctxI.phaseIsConsidered p = true)
    (hokI : calculateGradients ctxI s0I = .ok sI)
    (hpB : ctxB.phaseIsConsidered q = true)
    (hokB : calculateBoundaryGradients ctxB s0B = .ok sB) :
    ((0 < dotV (sI.potentialGrad p) ctxI.normal →
        sI.upstreamDofIdx p = ctxI.exteriorIndex ∧
        sI.downstreamDofIdx p = ctxI.interiorIndex) ∧
      (dotV (sI.potentialGrad p) ctxI.normal ≤ 0 →
        sI.upstreamDofIdx p = ctxI.interiorIndex ∧
        sI.downstreamDofIdx p = ctxI.exteriorIndex)) ∧
    ((0 < dotV (sB.potentialGrad q) ctxB.normal →
        sB.upstreamDofIdx q = -1 ∧
        sB.downstreamDofIdx q = ctxB.interiorIndex) ∧
      (dotV (sB.potentialGrad q) ctxB.normal ≤ 0 →
        sB.upstreamDofIdx q = ctxB.interiorIndex ∧
        sB.downstreamDofIdx q = -1)) := by
  obtain ⟨-, -, -, hI⟩ := calculateGradients_ok_spec ctxI s0I sI hokI
  obtain ⟨-, -, hup, hdown, -⟩ := hI p hpI
  obtain ⟨-, -, -, hB⟩ := calculateBoundaryGradients_ok_spec ctxB s0B sB hokB
  obtain ⟨-, -, hupB, hdownB, -⟩ := hB q hpB
  refine ⟨⟨fun h => ?_, fun h => ?_⟩, ⟨fun h => ?_, fun h => ?_⟩⟩
  · rw [hup, hdown]
    simp [ratGtZeroS, h]
  · rw [hup, hdown]
    simp [ratGtZeroS, not_lt.mpr h]
  · rw [hupB, hdownB]
    simp [ratGtZeroS, h]
  · rw [hupB, hdownB]
    simp [ratGtZeroS, not_lt.mpr h]

/-- Witness for C2: on `exCtxI` the projection is 2 (exterior upstream),
on `exCtxB` it is -2 (interior upstream). -/
theorem c2_upwind_classification_witness :
    exCtxI.phaseIsConsidered 0 = true ∧ exCtxB.phaseIsConsidered 0 = true ∧
    calculateGradients exCtxI exS0 = .ok exIState ∧
    calculateBoundaryGradients exCtxB exS0 = .ok exBState ∧
    ((0 < dotV (exIState.potentialGrad 0) exCtxI.normal →
        exIState.upstreamDofIdx 0 = exCtxI.exteriorIndex ∧
        exIState.downstreamDofIdx 0 = exCtxI.interiorIndex) ∧
      (dotV (exIState.potentialGrad 0) exCtxI.normal ≤ 0 →
        exIState.upstreamDofIdx 0 = exCtxI.interiorIndex ∧
        exIState.downstreamDofIdx 0 = exCtxI.exteriorIndex)) ∧
    ((0 < dotV (exBState.potentialGrad 0) exCtxB.normal →
        exBState.upstreamDofIdx 0 = -1 ∧
        exBState.downstreamDofIdx 0 = exCtxB.interiorIndex) ∧
      (dotV (exBState.potentialGrad 0) exCtxB.normal ≤ 0 →
        exBState.upstreamDofIdx 0 = exCtxB.interiorIndex ∧
        exBState.downstreamDofIdx 0 = -1)) := by
  have h := c2_upwind_classification exCtxI exCtxB exS0 exIState exS0 exBState 0 0
    rfl exIState_ok rfl exBState_ok
  exact ⟨rfl, rfl, exIState_ok, exBState_ok, h.1, h.2⟩

/-- C3: for every face (interior or boundary) and every phase not
considered by the active model configuration, the flux stage sets both
the filter velocity vector and the volumetric flux to exactly zero,
whatever the record held before. -/
theorem c3_unconsidered_phase_zero
    (ctxI : InteriorFaceCtx ℚ d np) (ctxB : BoundaryFaceCtx ℚ d np)
    (s t : DarcyQuantities ℚ d np) (p q : Fin np)
    (hp : ctxI.phaseIsConsidered p = false) (hq : ctxB.phaseIsConsidered q = false) :
    ((calculateFluxes ctxI s).filterVelocity p = vzero ∧
      (calculateFluxes ctxI s).volumeFlux p = 0) ∧
    ((calculateBoundaryFluxes ctxB t).filterVelocity q = vzero ∧
      (calculateBoundaryFluxes ctxB t).volumeFlux q = 0) := by
  refine ⟨⟨?_, ?_⟩, ⟨?_, ?_⟩⟩ <;>
    simp [calculateFluxes, calculateBoundaryFluxes, hp, hq, ratZeroS]

/-- Witness for C3 on faces whose single phase is not considered. -/
theorem c3_unconsidered_phase_zero_witness :
    exCtxI3.phaseIsConsidered 0 = false ∧ exCtxB3.phaseIsConsidered 0 = false ∧
    ((calculateFluxes exCtxI3 junkState6).filterVelocity 0 = vzero ∧
      (calculateFluxes exCtxI3 junkState6).volumeFlux 0 = 0) ∧
    ((calculateBoundaryFluxes exCtxB3 junkState6).filterVelocity 0 = vzero ∧
      (calculateBoundaryFluxes exCtxB3 junkState6).volumeFlux 0 = 0) :=
  ⟨rfl, rfl, (c3_unconsidered_phase_zero exCtxI3 exCtxB3 junkState6 junkState6 0 0 rfl rfl).1,
   (c3_unconsidered_phase_zero exCtxI3 exCtxB3 junkState6 junkState6 0 0 rfl rfl).2⟩

/-- C4 as stated is false on the code: at `ctx4` (interior gravity,
`gIn = [0]`, `gEx = [2]`) the code computes the hydrostatic terms with
each volume's own gravitational acceleration and with displacements
pointing from the face to the volume centers, producing the gradient
`[-1]`, whereas the claim's formula (arithmetic-mean gravity, displacement
from volume center to integration point) gives the correction `[1]`. -/
theorem c4_counterexample :
    ctx4.enableGravity = true ∧ ctx4.phaseIsConsidered 0 = true ∧
    calculateGradients ctx4 exS0 = .ok ex4State ∧
    ex4State.potentialGrad 0 0 = -1 ∧
    vadd (ctx4.rawGrad 0) (specGravCorrC4 ctx4 0) 0 = 1 ∧
    ex4State.potentialGrad 0 ≠ vadd (ctx4.rawGrad 0) (specGravCorrC4 ctx4 0) := by
  have hval1 : ex4State.potentialGrad 0 0 = -1 := of_decide_eq_true (by with_unfolding_all rfl)
  have hval2 : vadd (ctx4.rawGrad 0) (specGravCorrC4 ctx4 0) 0 = 1 :=
    of_decide_eq_true (by with_unfolding_all rfl)
  refine ⟨rfl, rfl, ex4State_ok, hval1, hval2, fun h => ?_⟩
  have h0 := congrFun h 0
  rw [hval1, hval2] at h0
  exact absurd h0 (by norm_num)

/-- C4 amended: for every interior face with gravity enabled and every
considered phase, the correction added to the raw pressure gradient uses
each control volume's own gravitational acceleration (no arithmetic mean
is formed), the hydrostatic pressure at each volume center is
`-rho*(g*d)` with `d` the displacement from the face integration point to
that volume center, and the correction vector is the center-to-center
vector scaled by `(pStatExt - pStatInt)` over the squared center-to-center
distance. -/
theorem c4_hydrostatic_correction_amended
    (ctx : InteriorFaceCtx ℚ d np) (s0 s' : DarcyQuantities ℚ d np) (p : Fin np)
    (hg : ctx.enableGravity = true) (hp : ctx.phaseIsConsidered p = true)
    (hok : calculateGradients ctx s0 = .ok s') :
    s'.potentialGrad p =
      vadd (ctx.rawGrad p)
        (vscale
          ((-(ctx.density ctx.exteriorIndex p *
              dotV (ctx.gravity ctx.exteriorIndex)
                (vsub (ctx.pos ctx.exteriorIndex) ctx.integrationPos)) -
            -(ctx.density ctx.interiorIndex p *
              dotV (ctx.gravity ctx.interiorIndex)
                (vsub (ctx.pos ctx.interiorIndex) ctx.integrationPos))) /
            two_norm2V (vsub (ctx.pos ctx.exteriorIndex) (ctx.pos ctx.interiorIndex)))
          (vsub (ctx.pos ctx.exteriorIndex) (ctx.pos ctx.interiorIndex))) := by
  obtain ⟨-, -, -, hI⟩ := calculateGradients_ok_spec ctx s0 s' hok
  obtain ⟨hpg, -, -, -, -⟩ := hI p hp
  rw [hg] at hpg
  simp only [if_true] at hpg
  exact hpg

/-- Witness for the amended C4 at `ctx4`. -/
theorem c4_hydrostatic_correction_amended_witness :
    ctx4.enableGravity = true ∧ ctx4.phaseIsConsidered 0 = true ∧
    calculateGradients ctx4 exS0 = .ok ex4State ∧
    ex4State.potentialGrad 0 =
      vadd (ctx4.rawGrad 0)
        (vscale
          ((-(ctx4.density ctx4.exteriorIndex 0 *
              dotV (ctx4.gravity ctx4.exteriorIndex)
                (vsub (ctx4.pos ctx4.exteriorIndex) ctx4.integrationPos)) -
            -(ctx4.density ctx4.interiorIndex 0 *
              dotV (ctx4.gravity ctx4.interiorIndex)
                (vsub (ctx4.pos ctx4.interiorIndex) ctx4.integrationPos))) /
            two_norm2V (vsub (ctx4.pos ctx4.exteriorIndex) (ctx4.pos ctx4.interiorIndex)))
          (vsub (ctx4.pos ctx4.exteriorIndex) (ctx4.pos ctx4.interiorIndex))) :=
  ⟨rfl, rfl, ex4State_ok,
   c4_hydrostatic_correction_amended ctx4 exS0 ex4State 0 rfl rfl ex4State_ok⟩

/-- C5: with gravity enabled, if the gravity-corrected potential gradient
of a considered phase is not finite (and the other considered phases are
unaffected), the gradient stage throws `NumericalProblem` naming exactly
that phase — for the interior and the boundary variant alike — and the
composed gradient-then-flux evaluation fails with the same error, so the
non-finite gradient never reaches a flux result. -/
theorem c5_nonfinite_gradient_fails
    (ctxI : InteriorFaceCtx FScalar d np) (ctxB : BoundaryFaceCtx FScalar d np)
    (s0I s0B : DarcyQuantities FScalar d np) (p q : Fin np)
    (hgI : ctxI.enableGravity = true)
    (hpI : ctxI.phaseIsConsidered p = true)
    (hnfI : ScalarLike.isFiniteS (two_normV (vadd (ctxI.rawGrad p) (gravCorrI ctxI p))) = false)
    (honlyI : ∀ r : Fin np, r ≠ p → ctxI.phaseIsConsidered r = true →
      ScalarLike.isFiniteS (two_normV (vadd (ctxI.rawGrad r) (gravCorrI ctxI r))) = true)
    (hgB : ctxB.enableGravity = true)
    (hpB : ctxB.phaseIsConsidered q = true)
    (hnfB : ScalarLike.isFiniteS (two_normV (vadd (ctxB.rawGrad q) (gravCorrB ctxB q))) = false)
    (honlyB : ∀ r : Fin np, r ≠ q → ctxB.phaseIsConsidered r = true →
      ScalarLike.isFiniteS (two_normV (vadd (ctxB.rawGrad r) (gravCorrB ctxB r))) = true) :
    (calculateGradients ctxI s0I = .error (.numericalProblem p) ∧
      interiorGradThenFlux ctxI s0I = .error (.numericalProblem p)) ∧
    (calculateBoundaryGradients ctxB s0B = .error (.numericalProblem q) ∧
      boundaryGradThenFlux ctxB s0B = .error (.numericalProblem q)) := by
  have hloopI : gravLoop ctxI.phaseIsConsidered (gravCorrI ctxI) (List.finRange np)
      (fun r => if ctxI.phaseIsConsidered r then ctxI.rawGrad r else s0I.potentialGrad r)
      = .error (.numericalProblem p) := by
    refine gravLoop_error_at (List.finRange np) (List.nodup_finRange np) _ p
      (List.mem_finRange p) hpI ?_ ?_
    · simpa [hpI] using hnfI
    · intro r hr hrp hcr
      simpa [hcr] using honlyI r hrp hcr
  have hloopB : gravLoop ctxB.phaseIsConsidered (gravCorrB ctxB) (List.finRange np)
      (fun r => if ctxB.phaseIsConsidered r then ctxB.rawGrad r else s0B.potentialGrad r)
      = .error (.numericalProblem q) := by
    refine gravLoop_error_at (List.finRange np) (List.nodup_finRange np) _ q
      (List.mem_finRange q) hpB ?_ ?_
    · simpa [hpB] using hnfB
    · intro r hr hrq hcr
      simpa [hcr] using honlyB r hrq hcr
  have hgradI : calculateGradients ctxI s0I = .error (.numericalProblem p) := by
    unfold calculateGradients
    rw [hgI]
    simp only [if_true]
    rw [hloopI]
  have hgradB : calculateBoundaryGradients ctxB s0B = .error (.numericalProblem q) := by
    unfold calculateBoundaryGradients
    rw [hgB]
    simp only [if_true]
    rw [hloopB]
  refine ⟨⟨hgradI, ?_⟩, ⟨hgradB, ?_⟩⟩
  · unfold interiorGradThenFlux
    rw [hgradI]
    rfl
  · unfold boundaryGradThenFlux
    rw [hgradB]
    rfl

/-- Witness for C5: the spec's failure scenario (opposite-sign infinite
densities) makes the interior corrected gradient `nan` and the boundary
corrected gradient infinite; both variants throw naming phase 0. -/
theorem c5_nonfinite_gradient_fails_witness :
    ctxI5.enableGravity = true ∧
    ScalarLike.isFiniteS (two_normV (vadd (ctxI5.rawGrad 0) (gravCorrI ctxI5 0))) = false ∧
    ctxB5.enableGravity = true ∧
    ScalarLike.isFiniteS (two_normV (vadd (ctxB5.rawGrad 0) (gravCorrB ctxB5 0))) = false ∧
    calculateGradients ctxI5 exF0 = .error (.numericalProblem 0) ∧
    interiorGradThenFlux ctxI5 exF0 = .error (.numericalProblem 0) ∧
    calculateBoundaryGradients ctxB5 exF0 = .error (.numericalProblem 0) ∧
    boundaryGradThenFlux ctxB5 exF0 = .error (.numericalProblem 0) := by
  have h := c5_nonfinite_gradient_fails ctxI5 ctxB5 exF0 exF0 0 0
    rfl rfl (of_decide_eq_true (by with_unfolding_all rfl))
    (fun r hr _ => absurd (Fin.fin_one_eq_zero r) hr)
    rfl rfl (of_decide_eq_true (by with_unfolding_all rfl))
    (fun r hr _ => absurd (Fin.fin_one_eq_zero r) hr)
  exact ⟨rfl, of_decide_eq_true (by with_unfolding_all rfl), rfl,
    of_decide_eq_true (by with_unfolding_all rfl), h.1.1, h.1.2, h.2.1, h.2.2⟩

/-- C6 as stated is false on the code: `calculateFluxes_` performs no
precondition check at all, so invoking it on a record the gradient stage
never touched silently computes a flux from the record's leftover
permeability (2), mobility (3) and gradient (5) slots — here the definite
nonzero answer -30 — instead of failing. -/
theorem c6_counterexample :
    (calculateFluxes exCtxI junkState6).volumeFlux 0 = -30 ∧
    ((-30 : ℚ) ≠ 0) ∧
    (calculateFluxes exCtxI junkState6).filterVelocity 0 =
      vscale (-(junkState6.mobility 0)) (matMulVec junkState6.K (junkState6.potentialGrad 0)) :=
  ⟨of_decide_eq_true (by with_unfolding_all rfl), by norm_num, rfl⟩

/-- C6 amended: the gradients-before-fluxes precondition is documented
but not enforced; on any record — initialized by the gradient stage or
not — the flux stage always succeeds and overwrites only the filter
velocities and volume fluxes, computing them from whatever permeability,
mobility and gradient values the record currently holds. -/
theorem c6_flux_stage_unguarded
    (ctxI : InteriorFaceCtx α d np) (ctxB : BoundaryFaceCtx α d np)
    (s t : DarcyQuantities α d np) :
    calculateFluxes ctxI s =
      { s with
        filterVelocity := fun p =>
          if ctxI.phaseIsConsidered p then
            vscale (-(s.mobility p)) (matMulVec s.K (s.potentialGrad p))
          else vzero
        volumeFlux := fun p =>
          if ctxI.phaseIsConsidered p then
            dotV (vscale (-(s.mobility p)) (matMulVec s.K (s.potentialGrad p))) ctxI.normal
          else ScalarLike.zeroS } ∧
    calculateBoundaryFluxes ctxB t =
      { t with
        filterVelocity := fun q =>
          if ctxB.phaseIsConsidered q then
            vscale (-(t.mobility q)) (matMulVec t.K (t.potentialGrad q))
          else vzero
        volumeFlux := fun q =>
          if ctxB.phaseIsConsidered q then
            dotV (vscale (-(t.mobility q)) (matMulVec t.K (t.potentialGrad q))) ctxB.normal
          else ScalarLike.zeroS } :=
  ⟨rfl, rfl⟩

/-- C7: on a boundary face, when the computed upstream side of a
considered phase is the exterior sentinel `-1`, the recorded mobility is
the relative permeability from the prescribed fluid state divided by the
viscosity from that prescribed state; when the upstream side is the
interior volume, the mobility is the interior volume's record. -/
theorem c7_boundary_upstream_mobility
    (ctx : BoundaryFaceCtx α d np) (s0 s' : DarcyQuantities α d np) (q : Fin np)
    (hin : 0 ≤ ctx.interiorIndex)
    (hq : ctx.phaseIsConsidered q = true)
    (hok : calculateBoundaryGradients ctx s0 = .ok s') :
    (s'.upstreamDofIdx q = -1 → s'.mobility q = ctx.kr q / ctx.viscosity q) ∧
    (s'.upstreamDofIdx q = ctx.interiorIndex → s'.mobility q = ctx.mobilityIn q) := by
  obtain ⟨-, -, -, hB⟩ := calculateBoundaryGradients_ok_spec ctx s0 s' hok
  obtain ⟨-, -, -, -, hmob⟩ := hB q hq
  constructor
  · intro hup
    rw [hmob, hup]
    simp
  · intro hup
    rw [hmob, hup, if_neg (not_lt.mpr hin)]

/-- Witness for C7 on `exCtxB2` (outward flow, mobility `3/2 = kr/mu`)
together with the interior-upstream case on `exCtxB`. -/
theorem c7_boundary_upstream_mobility_witness :
    (0 : Int) ≤ exCtxB2.interiorIndex ∧ exCtxB2.phaseIsConsidered 0 = true ∧
    calculateBoundaryGradients exCtxB2 exS0 = .ok exB2State ∧
    exB2State.upstreamDofIdx 0 = -1 ∧
    exB2State.mobility 0 = exCtxB2.kr 0 / exCtxB2.viscosity 0 ∧
    exBState.upstreamDofIdx 0 = exCtxB.interiorIndex ∧
    exBState.mobility 0 = exCtxB.mobilityIn 0 := by
  have h2 := c7_boundary_upstream_mobility exCtxB2 exS0 exB2State 0
    (by decide) rfl exB2State_ok
  have h1 := c7_boundary_upstream_mobility exCtxB exS0 exBState 0
    (by decide) rfl exBState_ok
  have hup2 : exB2State.upstreamDofIdx 0 = -1 := of_decide_eq_true (by with_unfolding_all rfl)
  have hup1 : exBState.upstreamDofIdx 0 = exCtxB.interiorIndex :=
    of_decide_eq_true (by with_unfolding_all rfl)
  exact ⟨by decide, rfl, exB2State_ok, hup2, h2.1 hup2, hup1, h1.2 hup1⟩

/-- C8 as stated is false on the code: at the gravity-enabled boundary
face `ctx8` the prescribed exterior state equals the interior state (the
boundary gradient calculator returns the zero raw gradient), yet the
interior-side hydrostatic correction turns the gradient into `[-6]` and
the computed volumetric flux is 6, not 0. -/
theorem c8_counterexample :
    ctx8.enableGravity = true ∧
    ctx8.rawGrad 0 = vzero ∧
    boundaryGradThenFlux ctx8 exS0 = .ok ex8State ∧
    ex8State.volumeFlux 0 = 6 ∧ (6 : ℚ) ≠ 0 := by
  refine ⟨rfl, ?_, ex8State_ok, of_decide_eq_true (by with_unfolding_all rfl), by norm_num⟩
  funext i
  rfl

/-- C8 amended: on a boundary face whose prescribed exterior state equals
the interior state — so that the boundary gradient calculator returns a
zero raw pressure gradient for every considered phase — the computed
volumetric flux is zero for every phase, provided gravity is disabled
(with gravity enabled the interior-side hydrostatic correction makes the
flux nonzero even for identical states). -/
theorem c8_zero_differential_zero_flux_amended
    (ctx : BoundaryFaceCtx ℚ d np) (s0 s' : DarcyQuantities ℚ d np)
    (hg : ctx.enableGravity = false)
    (hraw : ∀ p : Fin np, ctx.phaseIsConsidered p = true → ctx.rawGrad p = vzero)
    (hok : boundaryGradThenFlux ctx s0 = .ok s') :
    ∀ p : Fin np, s'.volumeFlux p = 0 := by
  intro p
  unfold boundaryGradThenFlux at hok
  cases hbg : calculateBoundaryGradients ctx s0 with
  | error e =>
    rw [hbg] at hok
    simp [Except.map] at hok
  | ok sg =>
    rw [hbg] at hok
    simp only [Except.map, Except.ok.injEq] at hok
    subst hok
    by_cases hc : ctx.phaseIsConsidered p = true
    · obtain ⟨-, -, -, hB⟩ := calculateBoundaryGradients_ok_spec ctx s0 sg hbg
      obtain ⟨hpg, -, -, -, -⟩ := hB p hc
      rw [hg] at hpg
      simp only [Bool.false_eq_true, if_false] at hpg
      rw [hraw p hc] at hpg
      simp [calculateBoundaryFluxes, calculateFilterVelocity, hc, hpg,
        matMulVec_vzero, vscale_vzero, dotV_zeroLeft]
    · simp [calculateBoundaryFluxes, hc, ratZeroS]

/-- Witness for the amended C8 on `ctxB8off` (gravity off, zero
differential): the computed flux is 0. -/
theorem c8_zero_differential_zero_flux_amended_witness :
    ctxB8off.enableGravity = false ∧
    boundaryGradThenFlux ctxB8off exS0 = .ok exB8State ∧
    exB8State.volumeFlux 0 = 0 :=
  ⟨rfl, exB8State_ok,
   c8_zero_differential_zero_flux_amended ctxB8off exS0 exB8State rfl
     (fun _ _ => funext fun _ => rfl) exB8State_ok 0⟩

/-- C9: on an interior face (whose interior and exterior indices differ,
as the stencil guarantees), after the gradient stage exactly one of the
recorded upstream and downstream indices of each considered phase equals
the interior control-volume index, and the other equals the exterior
index. -/
theorem c9_exactly_one_interior
    (ctx : InteriorFaceCtx α d np) (s0 s' : DarcyQuantities α d np) (p : Fin np)
    (hne : ctx.interiorIndex ≠ ctx.exteriorIndex)
    (hp : ctx.phaseIsConsidered p = true)
    (hok : calculateGradients ctx s0 = .ok s') :
    (s'.upstreamDofIdx p = ctx.interiorIndex ∧
      s'.downstreamDofIdx p = ctx.exteriorIndex ∧
      s'.downstreamDofIdx p ≠ ctx.interiorIndex) ∨
    (s'.downstreamDofIdx p = ctx.interiorIndex ∧
      s'.upstreamDofIdx p = ctx.exteriorIndex ∧
      s'.upstreamDofIdx p ≠ ctx.interiorIndex) := by
  obtain ⟨-, -, -, hI⟩ := calculateGradients_ok_spec ctx s0 s' hok
  obtain ⟨-, -, hup, hdown, -⟩ := hI p hp
  by_cases hgt : ScalarLike.gtZeroS (dotV (s'.potentialGrad p) ctx.normal) = true
  · right
    rw [hup, hdown, if_pos hgt, if_pos hgt]
    exact ⟨rfl, rfl, fun he => hne he.symm⟩
  · left
    rw [hup, hdown, if_neg hgt, if_neg hgt]
    exact ⟨rfl, rfl, fun he => hne he.symm⟩

/-- Witness for C9 on `exCtxI` (indices 0 and 1). -/
theorem c9_exactly_one_interior_witness :
    exCtxI.interiorIndex ≠ exCtxI.exteriorIndex ∧
    exCtxI.phaseIsConsidered 0 = true ∧
    calculateGradients exCtxI exS0 = .ok exIState ∧
    ((exIState.upstreamDofIdx 0 = exCtxI.interiorIndex ∧
       exIState.downstreamDofIdx 0 = exCtxI.exteriorIndex ∧
       exIState.downstreamDofIdx 0 ≠ exCtxI.interiorIndex) ∨
     (exIState.downstreamDofIdx 0 = exCtxI.interiorIndex ∧
       exIState.upstreamDofIdx 0 = exCtxI.exteriorIndex ∧
       exIState.upstreamDofIdx 0 ≠ exCtxI.interiorIndex)) :=
  ⟨by decide, rfl, exIState_ok,
   c9_exactly_one_interior exCtxI exS0 exIState 0 (by decide) rfl exIState_ok⟩

/-- C10: the claimed purity is the intent, but the code is not pure:
`makeEvaluation` reads `/home/joakimra/yesno.txt` on every call and flips
the time index when the file's first line is `"true"`, so the very same
call (primary variables `[1]`, `varIdx = 0`, `timeIdx = 0`) yields a
derivative-carrying variable when the line is empty and a constant when
it is `"true"` — the result depends on ambient filesystem state. -/
theorem c10_makeEvaluation_reads_ambient_file :
    @makeEvaluation 1 "" (fun _ => (1:ℚ)) 0 0 = Evaluation.varEval 1 0 ∧
    @makeEvaluation 1 "true" (fun _ => (1:ℚ)) 0 0 = Evaluation.constEval 1 ∧
    @makeEvaluation 1 "true" (fun _ => (1:ℚ)) 0 0 ≠
      @makeEvaluation 1 "" (fun _ => (1:ℚ)) 0 0 := by
  refine ⟨rfl, rfl, fun h => ?_⟩
  rw [show @makeEvaluation 1 "true" (fun _ => (1:ℚ)) 0 0 = Evaluation.constEval 1 from rfl,
      show @makeEvaluation 1 "" (fun _ => (1:ℚ)) 0 0 = Evaluation.varEval 1 0 from rfl] at h
  exact Evaluation.noConfusion h

end OpmDarcy
